import Mathlib

/-!
A shallow embedding of the Aqualink orchestration layer: the voice-link
synchronizer (Connection), the per-guild playback state machine (Player),
the node connection lifecycle (Node) and the REST request layer (Rest),
together with theorems settling the specified behaviours against the code.

Numbers follow the JavaScript sources: timestamps and counters are integers,
the CPU load ratio is a rational.  Fallible operations (JavaScript throw)
are embedded as Except values.  Remote fire-and-forget commands carry no
local state and are noted in comments where the source issues them.
-/

namespace Aqualink

/-! ### Voice link: Connection (src/unnamed/part_003)

State of one Connection object.  The constructor sets
voice to all-null, region null, flags false, lastUpdateTime 0 and
updateThrottle 1000.
-/

structure Voice where
  sessionId : Option String
  endpoint : Option String
  token : Option String
deriving Repr, DecidableEq

structure ConnState where
  voice : Voice
  region : Option String
  selfDeaf : Bool
  selfMute : Bool
  voiceChannel : Option String
  lastUpdateTime : ℤ
  updateThrottle : ℤ
deriving Repr, DecidableEq

/-- The Connection constructor (part_003 lines 19-28). -/
def ConnState.init (voiceChannel : Option String) : ConnState :=
  { voice := { sessionId := none, endpoint := none, token := none }
    region := none
    selfDeaf := false
    selfMute := false
    voiceChannel := voiceChannel
    lastUpdateTime := 0
    updateThrottle := 1000 }

/-- updatePlayerVoiceData (part_003 lines 69-86): if at least updateThrottle
time units elapsed since lastUpdateTime, record the current time and transmit
the voice data to the bound node (the returned flag is true exactly when the
rest call updatePlayer is issued); otherwise the push is dropped and the
state is left untouched. -/
def ConnState.updatePlayerVoiceData (c : ConnState) (now : ℤ) : ConnState × Bool :=
  if c.updateThrottle ≤ now - c.lastUpdateTime then
    ({ c with lastUpdateTime := now }, true)
  else
    (c, false)

/-- The first dot-separated component of a string, character by character:
everything before the first dot (the whole string when no dot occurs), which
is what endpoint.split(".")[0] yields. -/
def splitHeadAtDot : List Char → List Char
  | [] => []
  | c :: cs => if c = '.' then [] else c :: splitHeadAtDot cs

/-- Region derivation in setServerUpdate (part_003 line 33):
the first dot-separated component of the endpoint with the decimal digits
removed; the digit class [0-9] coincides with Char.isDigit. -/
def deriveRegion (endpoint : String) : String :=
  String.mk ((splitHeadAtDot endpoint.toList).filter (fun ch => !ch.isDigit))

/-- updateRegion (part_003 lines 40-51): store the new region and the new
endpoint and token (the debug emit carries no state). -/
def ConnState.updateRegion (c : ConnState) (newRegion endpoint token : String) : ConnState :=
  { c with region := some newRegion
           voice := { c.voice with endpoint := some endpoint, token := some token } }

/-- setServerUpdate (part_003 lines 30-38): reject a falsy endpoint; derive
the region; call updateRegion only when the derived region differs from the
recorded one; always attempt the throttled push afterwards.  The returned
flag reports whether the push was transmitted. -/
def ConnState.setServerUpdate (c : ConnState) (endpoint token : String) (now : ℤ) :
    Except String (ConnState × Bool) :=
  if endpoint = "" then
    Except.error "Missing endpoint property in VOICE_SERVER_UPDATE"
  else
    let newRegion := deriveRegion endpoint
    let c1 := if c.region ≠ some newRegion then c.updateRegion newRegion endpoint token else c
    Except.ok (c1.updatePlayerVoiceData now)

/-- A sequence of push attempts at the given times, returning the final state
and how many pushes were actually transmitted. -/
def ConnState.pushSeq (c : ConnState) (times : List ℤ) : ConnState × ℕ :=
  times.foldl
    (fun acc t =>
      let r := acc.1.updatePlayerVoiceData t
      (r.1, acc.2 + (if r.2 then 1 else 0)))
    (c, 0)

/-! ### Rest (src/structures/Node.ts, Rest class)

Only the state the claims inspect is kept: the call counter incremented by
makeRequest, a log of the player-update bodies actually handed to
makeRequest, and the configured rest version.  The HTTP transport itself is
an external collaborator.
-/

structure TrackPatch where
  encoded : Option String
  identifier : Option String
deriving Repr, DecidableEq

structure UpdatePayload where
  track : Option TrackPatch
  encodedTrack : Option String
  identifier : Option String
deriving Repr, DecidableEq

/-- JavaScript truthiness of an optional string field: present and non-empty. -/
def truthy : Option String → Bool
  | none => false
  | some s => s ≠ ""

structure RestState where
  calls : ℕ
  version : String
  requests : List UpdatePayload
deriving Repr, DecidableEq

/-- makeRequest (Node.ts lines 657-674) as it affects local state: the
request is performed and the call counter incremented. -/
def RestState.makeRequest (r : RestState) (body : UpdatePayload) : RestState :=
  { r with calls := r.calls + 1, requests := r.requests ++ [body] }

/-- The rejection condition of updatePlayer (Node.ts lines 678-679):
both fields of the nested track object truthy, or both legacy top-level
fields truthy. -/
def conflictingTrack (body : UpdatePayload) : Bool :=
  (truthy (body.track.bind TrackPatch.encoded) && truthy (body.track.bind TrackPatch.identifier))
    || (truthy body.encodedTrack && truthy body.identifier)

/-- The v3 body rewrite in updatePlayer (Node.ts lines 682-686): move the
nested track object to a top-level field chosen by the truthiness of
track.encoded. -/
def UpdatePayload.v3Rewrite (body : UpdatePayload) : UpdatePayload :=
  match body.track with
  | none => body
  | some tp =>
      if truthy tp.encoded then
        { body with track := none, encodedTrack := tp.encoded }
      else
        { body with track := none, identifier := tp.identifier }

/-- updatePlayer (Node.ts lines 676-692): raise the conflict error before any
request; otherwise rewrite the body for v3 when a nested track object is
present, then perform the request. -/
def RestState.updatePlayer (r : RestState) (body : UpdatePayload) :
    RestState × Except String Unit :=
  if conflictingTrack body then
    (r, Except.error "Cannot provide both encoded and identifier for track")
  else
    let rb := if r.version = "v3" && body.track.isSome then body.v3Rewrite else body
    (r.makeRequest rb, Except.ok ())

/-! ### Playback state machine: Player (src/unnamed/part_001)

The queue (part_002) is an Array subclass used through shift, unshift, push,
isEmpty and clear, embedded as a Lean list.  A track is the engine-issued
token (the field is named track in the source); resolution of a token-less
track is an external collaborator and is passed in as a function.  The
per-session WeakMap store is an optional association list: the field is
declared but never initialized by the constructor, so it starts out as
none (undefined).
-/

inductive LoopMode
  | none
  | track
  | queue
deriving Repr, DecidableEq

structure Track where
  track : String
deriving Repr, DecidableEq

structure PlayerOptions where
  mute : Option Bool := Option.none
  deaf : Option Bool := Option.none
  defaultVolume : Option ℤ := Option.none
  loop : Option LoopMode := Option.none
  shouldDeleteMessage : Option Bool := Option.none
deriving Repr, DecidableEq

structure Player where
  mute : Bool
  deaf : Bool
  volume : ℤ
  loop : LoopMode
  queue : List Track
  position : ℤ
  current : Option Track
  playing : Bool
  paused : Bool
  connected : Bool
  nowPlayingMessage : Bool
  previousTracks : List Track
  shouldDeleteMessage : Bool
  dataStore : Option (List (ℕ × ℕ))
deriving Repr, DecidableEq

/-- The Player constructor (part_001 lines 68-97).  Every field it assigns is
set; the private field of the WeakMap store is declared at line 66 but never
assigned here, so it remains undefined (none). -/
def Player.construct (options : PlayerOptions) : Player :=
  { mute := options.mute.getD false
    deaf := options.deaf.getD false
    volume := options.defaultVolume.getD 100
    loop := options.loop.getD LoopMode.none
    queue := []
    position := 0
    current := Option.none
    playing := false
    paused := false
    connected := false
    nowPlayingMessage := false
    previousTracks := []
    shouldDeleteMessage := options.shouldDeleteMessage.getD true
    dataStore := Option.none }

/-- addToPreviousTrack (part_001 lines 114-119): when the history already has
at least 50 entries pop the last one, then unshift the new entry at the
front. -/
def Player.addToPreviousTrack (p : Player) (t : Track) : Player :=
  let pts := if 50 ≤ p.previousTracks.length then p.previousTracks.dropLast
             else p.previousTracks
  { p with previousTracks := t :: pts }

/-- play (part_001 lines 127-137): throw unless connected; no-op on an empty
queue; otherwise shift the head, resolve it when its token is falsy, mark
playing, reset the position and issue the set-current-track command (a
fire-and-forget rest call). -/
def Player.play (resolve : Track → Track) (p : Player) : Except String Player :=
  if !p.connected then Except.error "Player must be connected first."
  else
    match p.queue with
    | [] => Except.ok p
    | t :: rest =>
        let cur := if t.track ≠ "" then t else resolve t
        Except.ok { p with queue := rest, current := some cur, playing := true, position := 0 }

/-- stop (part_001 lines 211-217): no-op when not playing; otherwise issue the
clear-track command, clear the playing flag and reset the position.  The
current track is not cleared. -/
def Player.stop (p : Player) : Player :=
  if !p.playing then p else { p with playing := false, position := 0 }

/-- skip (part_001 lines 306-309): stop, then play only if the playing flag is
still set afterwards. -/
def Player.skip (resolve : Track → Track) (p : Player) : Except String Player :=
  let p1 := p.stop
  if p1.playing then p1.play resolve else Except.ok p1

/-- destroy (part_001 lines 169-182): no-op when not connected; otherwise
issue the clear-track command, clear queue, current track, history, playing
flag and position, send the voice disconnect and clear the connected flag. -/
def Player.destroy (p : Player) : Player :=
  if !p.connected then p
  else
    { p with queue := [], current := Option.none, previousTracks := [],
             playing := false, position := 0, connected := false }

/-- clearData (part_001 lines 416-419): replace the store with a fresh empty
WeakMap. -/
def Player.clearData (p : Player) : Player :=
  { p with dataStore := some [] }

/-- set (part_001 lines 408-410): a method call on the store field; when that
field was never initialized the access throws a TypeError. -/
def Player.set (k v : ℕ) (p : Player) : Except String Player :=
  match p.dataStore with
  | Option.none => Except.error "TypeError: cannot read properties of undefined"
  | some m => Except.ok { p with dataStore := some ((k, v) :: m) }

/-- get (part_001 lines 412-414): look the key up in the store field; throws
the same TypeError while the field is uninitialized. -/
def Player.get (k : ℕ) (p : Player) : Except String (Option ℕ) :=
  match p.dataStore with
  | Option.none => Except.error "TypeError: cannot read properties of undefined"
  | some m => Except.ok (((m.find? (fun kv => kv.1 == k))).map Prod.snd)

/-- cleanup (part_001 lines 433-438): destroy the session when it is neither
playing nor paused and the queue is empty; always reset the store. -/
def Player.cleanup (p : Player) : Player :=
  let p1 := if !p.playing && !p.paused && p.queue.isEmpty then p.destroy else p
  p1.clearData

/-- Drop the first underscore of a character list, leaving any later ones in
place. -/
def removeFirstUnderscoreAux : List Char → List Char
  | [] => []
  | c :: cs => if c = '_' then cs else c :: removeFirstUnderscoreAux cs

/-- JavaScript s.replace of the first underscore by the empty string
(String.prototype.replace with a string pattern replaces only the first
occurrence). -/
def replaceFirstUnderscore (s : String) : String :=
  String.mk (removeFirstUnderscoreAux s.toList)

/-- JavaScript toLowerCase on the ASCII strings the engine uses as end
reasons. -/
def toLowerAscii (s : String) : String :=
  String.mk (s.toList.map Char.toLower)

/-- The loop switch inside trackEnd (part_001 lines 362-371): track mode
re-inserts the given track at the queue head, queue mode appends it at the
tail, none mode leaves the queue alone. -/
def Player.loopRequeue (p : Player) (track : Track) : Player :=
  match p.loop with
  | LoopMode.track => { p with queue := track :: p.queue }
  | LoopMode.queue => { p with queue := p.queue ++ [track] }
  | LoopMode.none => p

/-- The tail of trackEnd after the end-reason branch (part_001 lines
362-377): run the loop switch, then if the queue is empty clear the playing
flag, emit queue-end and run cleanup, and finally always call play. -/
def Player.trackEndTail (resolve : Track → Track) (p : Player) (track : Track) :
    Except String Player :=
  let p1 := p.loopRequeue track
  let p2 := if p1.queue.isEmpty then Player.cleanup { p1 with playing := false } else p1
  p2.play resolve

/-- trackEnd (part_001 lines 344-378): clear the now-playing message, lower
the normalized end reason; on loadfailed or cleanup return at once when the
queue is empty, and otherwise call play — the source has no return after
that call, so control falls through into the loop switch and the final play
exactly as in the other branch. -/
def Player.trackEnd (resolve : Track → Track) (p : Player) (track : Track)
    (reason : Option String) : Except String Player :=
  let p0 := if p.shouldDeleteMessage && p.nowPlayingMessage
            then { p with nowPlayingMessage := false } else p
  let r := reason.map (fun s => toLowerAscii (replaceFirstUnderscore s))
  if r = some "loadfailed" ∨ r = some "cleanup" then
    if p0.queue.isEmpty then Except.ok p0
    else (p0.play resolve).bind (fun p1 => p1.trackEndTail resolve track)
  else
    p0.trackEndTail resolve track

/-! ### Node connection lifecycle (src/structures/Node.ts)

The reconnect/destroy behaviour is embedded as a step machine over the node
together with the registry-side list of sessions and the emitted
notifications.  A failed open of the websocket fires the error handler (a
plain nodeError emit) followed by the close handler.
-/

inductive NodeEvent
  | nodeErrorTransport
  | nodeDisconnect
  | nodeReconnect
  | maxReconnectError
  | nodeDestroy
deriving Repr, DecidableEq

/-- A guild session as the destroy cascade of Node.destroy sees it: the
session keeps the node it is bound to in its field named nodes (part_001
line 71), and we record whether it has been destroyed. -/
structure PlayerRef where
  nodes : ℕ
  destroyed : Bool
deriving Repr, DecidableEq

structure NodeSt where
  id : ℕ
  connected : Bool
  reconnectAttempted : ℕ
  reconnectTries : ℕ
  removedFromMap : Bool
deriving Repr, DecidableEq

structure PoolState where
  node : NodeSt
  players : List PlayerRef
  events : List NodeEvent
deriving Repr, DecidableEq

/-- The property access player.node in Node.destroy (Node.ts line 339):
Player declares no field named node — the bound node is stored in the field
named nodes — so the access yields undefined, and a strict comparison of
undefined with a node object is false for every node. -/
def PlayerRef.nodeField (_p : PlayerRef) : Option ℕ := Option.none

def PlayerRef.destroyRef (p : PlayerRef) : PlayerRef :=
  { p with destroyed := true }

/-- Node.destroy (Node.ts lines 330-352).  clean destroy only emits the
destroy notification and drops the config entry.  A full destroy walks the
registry players and destroys those whose node field strictly equals this
node — but only when the node is still marked connected — then closes the
channel, clears the connected flag, removes the node from the map, emits
nodeDestroy and resets the cached stats. -/
def PoolState.destroy (s : PoolState) (clean : Bool) : PoolState :=
  if clean then
    { s with events := s.events ++ [NodeEvent.nodeDestroy] }
  else
    let players1 :=
      if s.node.connected then
        s.players.map (fun p => if p.nodeField = some s.node.id then p.destroyRef else p)
      else s.players
    { node := { s.node with connected := false, removedFromMap := true }
      players := players1
      events := s.events ++ [NodeEvent.nodeDestroy] }

/-- The private reconnect handler (Node.ts lines 305-314): pre-increment the
attempt counter; when it meets or exceeds reconnectTries emit the fatal
max-reconnect error once and destroy the node (clean = false); otherwise
schedule a retry which emits nodeReconnect and calls connect again. -/
def PoolState.reconnect (s : PoolState) : PoolState :=
  let n := { s.node with reconnectAttempted := s.node.reconnectAttempted + 1 }
  if n.reconnectTries ≤ n.reconnectAttempted then
    PoolState.destroy
      { s with node := n, events := s.events ++ [NodeEvent.maxReconnectError] } false
  else
    { s with node := n, events := s.events ++ [NodeEvent.nodeReconnect] }

/-- The close handler (Node.ts lines 299-303): clear the connected flag, emit
nodeDisconnect and run the reconnect handler. -/
def PoolState.onClose (s : PoolState) : PoolState :=
  PoolState.reconnect
    { s with node := { s.node with connected := false }
             events := s.events ++ [NodeEvent.nodeDisconnect] }

/-- The open handler (Node.ts lines 186-198): set the connected flag and
fetch the engine info (an external request).  It does not touch the
reconnect-attempt counter. -/
def PoolState.onOpen (s : PoolState) : PoolState :=
  { s with node := { s.node with connected := true } }

/-- One failed open of the channel: the error handler emits nodeError, then
the close handler runs. -/
def PoolState.failedOpen (s : PoolState) : PoolState :=
  PoolState.onClose { s with events := s.events ++ [NodeEvent.nodeErrorTransport] }

/-- The alphabet of operations that can touch a node connection's state. -/
inductive NodeOp
  | opened
  | closed
  | failOp
  | destroyClean
  | destroyFull
deriving Repr, DecidableEq

def PoolState.stepOp : NodeOp → PoolState → PoolState
  | NodeOp.opened, s => s.onOpen
  | NodeOp.closed, s => s.onClose
  | NodeOp.failOp, s => s.failedOpen
  | NodeOp.destroyClean, s => s.destroy true
  | NodeOp.destroyFull, s => s.destroy false

/-! ### Penalty scoring and node selection
(src/structures/Node.ts lines 317-328, src/unnamed/part_000 lines 61-64)

The health snapshot fields used by the penalty computation.  The engine
reports them as JavaScript numbers; the integer counters are embedded as
integers and the CPU system-load ratio as a rational.  Math.pow(1.05, e) is
exact for the loads whose percentage 100·systemLoad is a whole number, which
is the grid this embedding evaluates the convex term on. -/

structure NodeStats where
  players : ℤ
  systemLoad : ℚ
  deficit : ℤ
  nulled : ℤ
deriving Repr, DecidableEq

/-- Number.MAX_SAFE_INTEGER. -/
def maxSafeInteger : ℤ := 2 ^ 53 - 1

/-- The convex CPU term of the penalty (Node.ts lines 320-322): nothing is
added when systemLoad is falsy (zero); otherwise
round(1.05 ^ (100·systemLoad) · 10 − 10). -/
def cpuPenalty (systemLoad : ℚ) : ℤ :=
  if systemLoad = 0 then 0
  else round (((105 : ℚ) / 100) ^ (⌊(100 : ℚ) * systemLoad⌋.toNat) * 10 - 10)

/-- A node as selection sees it: the connected flag, the rest call counter
used as the ranking key, and the last stats snapshot. -/
structure NodeView where
  connected : Bool
  calls : ℕ
  stats : NodeStats
deriving Repr, DecidableEq

/-- The penalties getter (Node.ts lines 317-328): MAX_SAFE_INTEGER for a
non-connected node; otherwise players plus the CPU term plus deficit plus
twice the nulled frames (the frameStats snapshot object always exists). -/
def NodeView.penalties (n : NodeView) : ℤ :=
  if !n.connected then maxSafeInteger
  else n.stats.players + cpuPenalty n.stats.systemLoad + n.stats.deficit + 2 * n.stats.nulled

/-- leastUsedNodes (part_000 lines 61-64): filter the pool to the connected
nodes and sort them ascending by the rest call counter (Array.prototype.sort
is stable, as is mergeSort). -/
def leastUsedNodes (nodes : List NodeView) : List NodeView :=
  (nodes.filter (fun n => n.connected)).mergeSort (fun a b => a.calls ≤ b.calls)

/-! ### Concrete states used by the scenario theorems -/

def trackA : Track := { track := "trackA" }

def trackB : Track := { track := "trackB" }

def trackC : Track := { track := "trackC" }

/-- A session whose voice link is established. -/
def sessionBase : Player :=
  { Player.construct {} with connected := true }

/-- A session that is playing track A with tracks B and C queued, under the
given loop mode. -/
def c1Session (m : LoopMode) : Player :=
  { sessionBase with playing := true, current := some trackA,
                     queue := [trackB, trackC], loop := m }

/-- A connected session with tracks A and B queued, loop mode none. -/
def c5Session : Player :=
  { sessionBase with queue := [trackA, trackB] }

/-- A session playing track A with track B queued. -/
def c7Session : Player :=
  { sessionBase with playing := true, current := some trackA, queue := [trackB] }

/-- A node configured with reconnectTries 3 and one guild session bound to
it (the session stores the node in its field named nodes). -/
def c2Pool : PoolState :=
  { node := { id := 7, connected := false, reconnectAttempted := 0,
              reconnectTries := 3, removedFromMap := false }
    players := [{ nodes := 7, destroyed := false }]
    events := [] }

/-- A node with a generous retry budget, used to watch the attempt counter
across a failure followed by a successful open. -/
def c3Pool : PoolState :=
  { node := { id := 1, connected := false, reconnectAttempted := 0,
              reconnectTries := 5, removedFromMap := false }
    players := []
    events := [] }

/-- Connected node: few rest calls, many assigned sessions (penalty 100). -/
def nodeLowCallsHighLoad : NodeView :=
  { connected := true, calls := 1
    stats := { players := 100, systemLoad := 0, deficit := 0, nulled := 0 } }

/-- Connected node: many rest calls, idle (penalty 0). -/
def nodeHighCallsLowLoad : NodeView :=
  { connected := true, calls := 5
    stats := { players := 0, systemLoad := 0, deficit := 0, nulled := 0 } }

/-- Connected node whose reported player count reaches 2^53, so its penalty
is not below MAX_SAFE_INTEGER. -/
def nodeOverflowStats : NodeView :=
  { connected := true, calls := 0
    stats := { players := 2 ^ 53, systemLoad := 0, deficit := 0, nulled := 0 } }

/-- A disconnected node. -/
def nodeDown : NodeView :=
  { connected := false, calls := 0
    stats := { players := 0, systemLoad := 0, deficit := 0, nulled := 0 } }

/-- A voice link that has already recorded region euwest with a full
credential set. -/
def connReady : ConnState :=
  { ConnState.init Option.none with
      region := some "euwest"
      voice := { sessionId := some "sess", endpoint := some "euwest1.discord.media",
                 token := some "tok" } }

/-- A player-update body carrying both the encoded token and the identifier
inside the nested track object. -/
def conflictBody : UpdatePayload :=
  { track := some { encoded := some "abc", identifier := some "xyz" }
    encodedTrack := Option.none
    identifier := Option.none }

/-- A player-update body carrying only the encoded token. -/
def cleanBody : UpdatePayload :=
  { track := some { encoded := some "abc", identifier := Option.none }
    encodedTrack := Option.none
    identifier := Option.none }

/-- A fresh v4 rest client. -/
def restV4 : RestState :=
  { calls := 0, version := "v4", requests := [] }

/-! ## Theorems -/

/-! ### Shared helper lemmas -/

/-- The reconnect handler always increments the attempt counter by exactly
one, whether or not it goes on to destroy the node. -/
theorem reconnect_attempt_succ (s : PoolState) :
    (s.reconnect).node.reconnectAttempted = s.node.reconnectAttempted + 1 := by
  dsimp only [PoolState.reconnect, PoolState.destroy]
  split <;> rfl

/-- The close handler increments the attempt counter by exactly one. -/
theorem onClose_attempt (s : PoolState) :
    (s.onClose).node.reconnectAttempted = s.node.reconnectAttempted + 1 := by
  unfold PoolState.onClose
  rw [reconnect_attempt_succ]

/-- A failed open increments the attempt counter by exactly one. -/
theorem failedOpen_attempt (s : PoolState) :
    (s.failedOpen).node.reconnectAttempted = s.node.reconnectAttempted + 1 := by
  unfold PoolState.failedOpen
  rw [onClose_attempt]

/-- stop always leaves the playing flag cleared. -/
theorem stop_playing_false (p : Player) : p.stop.playing = false := by
  unfold Player.stop
  split
  · next h => simpa using h
  · rfl

/-- stop changes neither the queue nor the current track. -/
theorem stop_queue_current (p : Player) :
    p.stop.queue = p.queue ∧ p.stop.current = p.current := by
  unfold Player.stop
  split <;> exact ⟨rfl, rfl⟩

/-- The throttled push either records the new timestamp and transmits, or
leaves the state entirely unchanged. -/
theorem updatePlayerVoiceData_cases (c : ConnState) (now : ℤ) :
    ((c.updatePlayerVoiceData now).2 = true ↔ c.updateThrottle ≤ now - c.lastUpdateTime)
    ∧ ((c.updatePlayerVoiceData now).2 = false → (c.updatePlayerVoiceData now).1 = c)
    ∧ (c.updatePlayerVoiceData now).1.voice = c.voice
    ∧ (c.updatePlayerVoiceData now).1.region = c.region
    ∧ (c.updatePlayerVoiceData now).1.updateThrottle = c.updateThrottle := by
  unfold ConnState.updatePlayerVoiceData
  split <;> simp_all

/-- The convex CPU penalty term is bounded once the load percentage is
bounded by 200. -/
theorem cpuPenalty_le (s : ℚ) (h : (⌊(100 : ℚ) * s⌋).toNat ≤ 200) :
    cpuPenalty s ≤ 172916 := by
  unfold cpuPenalty
  split
  · norm_num
  · have hb : (1 : ℚ) ≤ 105 / 100 := by norm_num
    have hpow : ((105 : ℚ) / 100) ^ ((⌊(100 : ℚ) * s⌋).toNat) ≤ ((105 : ℚ) / 100) ^ 200 :=
      pow_le_pow_right₀ hb h
    have hmono : round (((105 : ℚ) / 100) ^ ((⌊(100 : ℚ) * s⌋).toNat) * 10 - 10) ≤
        round (((105 : ℚ) / 100) ^ 200 * 10 - 10) := by
      rw [round_eq, round_eq]
      exact Int.floor_mono (by linarith)
    have hval : round (((105 : ℚ) / 100) ^ 200 * 10 - 10) = 172916 := by
      norm_num [round_eq]
    omega

/-! ### The claims -/

/-- Claim C1 (refuted by the code, documenting the bug): the specification
says a trackEnd whose reason denotes load failure drops the finished track
entirely — no requeue under any loop mode — and makes the former queue head
B current.  The source's loadfailed/cleanup branch calls play but has no
return statement, so control falls through into the loop switch and the
final unconditional play: with current = A, queue = [B, C] and reason
loadFailed the session ends on track C (not B) under loop none and loop
queue, and under loop track the finished track A is re-inserted at the
queue head and replayed. -/
theorem c1_trackEnd_loadFailed_fallthrough :
    ((c1Session LoopMode.none).trackEnd id trackA (some "loadFailed")).map
        (fun q => (q.current, q.queue)) = Except.ok (some trackC, [])
    ∧ ((c1Session LoopMode.track).trackEnd id trackA (some "loadFailed")).map
        (fun q => (q.current, q.queue)) = Except.ok (some trackA, [trackC])
    ∧ ((c1Session LoopMode.queue).trackEnd id trackA (some "loadFailed")).map
        (fun q => (q.current, q.queue)) = Except.ok (some trackC, [trackA]) :=
  ⟨rfl, rfl, rfl⟩

/-- Claim C2 (refuted by the code, documenting the bug): with
reconnectTries = 3, three consecutive failed opens do destroy the node and
emit the fatal max-reconnect error exactly once, but the destroy cascade
never tears down the bound sessions: on this path the connected flag is
already false when destroy runs, and the cascade compares the undefined
property player.node (the session stores its node under the name nodes)
against the node.  The bound session is still alive afterwards. -/
theorem c2_exhausted_reconnects_no_cascade :
    (c2Pool.failedOpen.failedOpen.failedOpen).node.removedFromMap = true
    ∧ (c2Pool.failedOpen.failedOpen.failedOpen).events.count NodeEvent.maxReconnectError = 1
    ∧ (c2Pool.failedOpen.failedOpen.failedOpen).players = [{ nodes := 7, destroyed := false }] := by
  decide

/-- Claim C3, counterexample: after one failed open the attempt counter is 1,
and a successful open leaves it at 1 — not 0 as the claim states; no code
path ever resets the counter. -/
theorem c3_counter_not_reset_cx :
    (c3Pool.failedOpen.onOpen).node.reconnectAttempted = 1
    ∧ ¬ (c3Pool.failedOpen.onOpen).node.reconnectAttempted = 0 := by
  decide

/-- Claim C3 as amended: a successful open leaves the reconnect-attempt
counter unchanged (it is never reset to zero), and no operation of the node
lifecycle ever decreases it. -/
theorem c3_counter_monotone :
    ∀ (s : PoolState) (op : NodeOp),
      s.node.reconnectAttempted ≤ (PoolState.stepOp op s).node.reconnectAttempted
      ∧ (s.onOpen).node.reconnectAttempted = s.node.reconnectAttempted := by
  intro s op
  refine ⟨?_, rfl⟩
  cases op
  case opened => exact le_rfl
  case closed =>
    have h := onClose_attempt s
    simp only [PoolState.stepOp]
    omega
  case failOp =>
    have h := failedOpen_attempt s
    simp only [PoolState.stepOp]
    omega
  case destroyClean =>
    simp [PoolState.stepOp, PoolState.destroy]
  case destroyFull =>
    simp [PoolState.stepOp, PoolState.destroy]

/-- Claim C4, counterexample: selection orders the connected nodes by the
rest call counter, not by penalty — the node with penalty 100 but 1 call is
returned ahead of the node with penalty 0 but 5 calls; moreover a connected
node whose reported stats are extreme (players = 2^53) has a penalty that is
not below a disconnected node's MAX_SAFE_INTEGER. -/
theorem c4_selection_not_by_penalty_cx :
    leastUsedNodes [nodeHighCallsLowLoad, nodeLowCallsHighLoad] =
      [nodeLowCallsHighLoad, nodeHighCallsLowLoad]
    ∧ nodeHighCallsLowLoad.penalties < nodeLowCallsHighLoad.penalties
    ∧ ¬ nodeOverflowStats.penalties < nodeDown.penalties := by
  refine ⟨?_, by decide, by decide⟩
  simp [leastUsedNodes, List.mergeSort, nodeHighCallsLowLoad, nodeLowCallsHighLoad]

/-- Claim C4 as amended: selection without a region returns exactly the
Connected nodes of the pool, ordered ascending by the rest call counter
(stably, so ties keep insertion order) rather than by penalty score; a
Disconnected or Reconnecting node's penalty is MAX_SAFE_INTEGER and is
strictly greater than the penalty of any Connected node whose stats are
within normal operating bounds; selection never returns a non-Connected
node. -/
theorem c4_leastUsed_sorted_by_calls :
    ∀ ns : List NodeView,
      (∀ m ∈ leastUsedNodes ns, m.connected = true)
      ∧ (leastUsedNodes ns).Pairwise (fun a b => a.calls ≤ b.calls)
      ∧ (leastUsedNodes ns).Perm (ns.filter (fun n => n.connected))
      ∧ (∀ m n : NodeView, m.connected = false → n.connected = true →
          n.stats.players ≤ 2 ^ 40 → n.stats.deficit ≤ 2 ^ 40 → n.stats.nulled ≤ 2 ^ 40 →
          (⌊(100 : ℚ) * n.stats.systemLoad⌋).toNat ≤ 200 →
          n.penalties < m.penalties) := by
  intro ns
  refine ⟨?_, ?_, List.mergeSort_perm _ _, ?_⟩
  · intro m hm
    have hmem : m ∈ ns.filter (fun n => n.connected) :=
      (List.mergeSort_perm (ns.filter (fun n => n.connected)) _).subset hm
    exact (List.mem_filter.mp hmem).2
  · have hs := @List.sorted_mergeSort NodeView
      (fun a b : NodeView => decide (a.calls ≤ b.calls))
      (fun a b c hab hbc => by
        simp only [decide_eq_true_eq] at *
        omega)
      (fun a b => by
        simp only [Bool.or_eq_true, decide_eq_true_eq]
        omega)
      (ns.filter (fun n => n.connected))
    exact hs.imp (fun h => of_decide_eq_true h)
  · intro m n hm hn h1 h2 h3 h4
    have hcpu := cpuPenalty_le n.stats.systemLoad h4
    unfold NodeView.penalties
    rw [hm, hn]
    simp only [Bool.not_true, Bool.not_false, Bool.false_eq_true, if_false, if_true]
    unfold maxSafeInteger
    have hnum : (2 : ℤ) ^ 40 + 172916 + 2 ^ 40 + 2 * 2 ^ 40 < 2 ^ 53 - 1 := by norm_num
    linarith

/-- Claim C4, witness for the amended theorem at concrete inputs: the
single-node pool selects its connected node, and the disconnected node's
penalty strictly dominates the busy connected node's. -/
theorem c4_leastUsed_sorted_by_calls_w :
    nodeLowCallsHighLoad.connected = true
    ∧ nodeLowCallsHighLoad.penalties < nodeDown.penalties :=
  ⟨(c4_leastUsed_sorted_by_calls [nodeLowCallsHighLoad]).1 nodeLowCallsHighLoad
      (by simp [leastUsedNodes, List.mergeSort, nodeLowCallsHighLoad]),
   (c4_leastUsed_sorted_by_calls []).2.2.2 nodeDown nodeLowCallsHighLoad
      (by decide) (by decide) (by decide) (by decide) (by decide)
      (by norm_num [nodeLowCallsHighLoad])⟩

/-- Claim C5, counterexample: after the normal-playback sequence — play on
queue [A, B], then trackEnd with reason finished under loop none — the
finished track A is not moved into the history buffer: trackEnd never calls
addToPreviousTrack, so the history is still empty rather than [A]. -/
theorem c5_history_not_updated_cx :
    ((c5Session.play id).bind (fun p1 => p1.trackEnd id trackA (some "finished"))).map
      (fun p => p.previousTracks) ≠ Except.ok [trackA] := by
  have h : ((c5Session.play id).bind (fun p1 => p1.trackEnd id trackA (some "finished"))).map
      (fun p => p.previousTracks) = Except.ok [] := rfl
  rw [h]
  simp

/-- Claim C5 as amended: with queue [A, B], play makes A current with
playing set and queue [B]; a trackEnd with reason finished under loop none
then discards A — the history buffer stays empty, addToPreviousTrack is
never invoked — and auto-invokes play, after which B is current, the queue
is empty and the session is still playing. -/
theorem c5_normal_playback :
    (c5Session.play id).map (fun p => (p.current, p.queue, p.playing)) =
      Except.ok (some trackA, [trackB], true)
    ∧ ((c5Session.play id).bind (fun p1 => p1.trackEnd id trackA (some "finished"))).map
        (fun p => (p.current, p.queue, p.previousTracks, p.playing)) =
      Except.ok (some trackB, [], [], true) :=
  ⟨rfl, rfl⟩

/-- Claim C6: a voice-link push is transmitted to the bound node exactly
when at least 1000 time units (the configured throttle) have elapsed since
the previous transmitted push, and a dropped push leaves the link state
untouched (nothing is queued or coalesced); consequently two pushes issued
10 time units apart transmit exactly one update and two pushes issued 1500
time units apart transmit two. -/
theorem c6_throttled_push (c : ConnState) (t : ℤ)
    (hthr : c.updateThrottle = 1000) (hfirst : 1000 ≤ t - c.lastUpdateTime) :
    (∀ now : ℤ, ((c.updatePlayerVoiceData now).2 = true ↔ 1000 ≤ now - c.lastUpdateTime)
      ∧ ((c.updatePlayerVoiceData now).2 = false → (c.updatePlayerVoiceData now).1 = c))
    ∧ (c.pushSeq [t, t + 10]).2 = 1
    ∧ (c.pushSeq [t, t + 1500]).2 = 2 := by
  refine ⟨?_, ?_, ?_⟩
  · intro now
    have h := updatePlayerVoiceData_cases c now
    rw [hthr] at h
    exact ⟨h.1, h.2.1⟩
  · have h1 : c.updatePlayerVoiceData t = ({ c with lastUpdateTime := t }, true) := by
      unfold ConnState.updatePlayerVoiceData
      rw [hthr, if_pos hfirst]
    have h2 : ConnState.updatePlayerVoiceData { c with lastUpdateTime := t } (t + 10) =
        ({ c with lastUpdateTime := t }, false) := by
      unfold ConnState.updatePlayerVoiceData
      rw [if_neg (by simp only [hthr]; omega)]
    simp [ConnState.pushSeq, h1, h2]
  · have h1 : c.updatePlayerVoiceData t = ({ c with lastUpdateTime := t }, true) := by
      unfold ConnState.updatePlayerVoiceData
      rw [hthr, if_pos hfirst]
    have h2 : ConnState.updatePlayerVoiceData { c with lastUpdateTime := t } (t + 1500) =
        ({ c with lastUpdateTime := t + 1500 }, true) := by
      unfold ConnState.updatePlayerVoiceData
      rw [if_pos (by simp only [hthr]; omega)]
    simp [ConnState.pushSeq, h1, h2]

/-- Claim C6, witness: from a fresh voice link, pushes at times 2000 and
2010 transmit one update; pushes at times 2000 and 3500 transmit two. -/
theorem c6_throttled_push_w :
    ((ConnState.init Option.none).pushSeq [2000, 2000 + 10]).2 = 1
    ∧ ((ConnState.init Option.none).pushSeq [2000, 2000 + 1500]).2 = 2 :=
  ⟨(c6_throttled_push (ConnState.init Option.none) 2000 rfl (by decide)).2.1,
   (c6_throttled_push (ConnState.init Option.none) 2000 rfl (by decide)).2.2⟩

/-- Claim C7, counterexample: on a session that is playing track A with
track B queued, skip stops but never starts the next track — afterwards the
current track is still A, the queue still holds B and the playing flag is
false, because stop has already cleared the flag the ternary tests. -/
theorem c7_skip_does_not_advance_cx :
    (c7Session.skip id).map (fun p => (p.current, p.queue, p.playing)) =
      Except.ok (some trackA, [trackB], false) :=
  rfl

/-- Claim C7 as amended: skip performs stop and would invoke play only if
the session were still marked playing afterwards; since stop always leaves
the playing flag false, skip never invokes play — it reduces to stop, so
the queue and the current track are untouched and the session ends up not
playing, regardless of whether the queue is non-empty. -/
theorem c7_skip_is_stop :
    ∀ (resolve : Track → Track) (p : Player),
      p.skip resolve = Except.ok p.stop
      ∧ p.stop.playing = false
      ∧ p.stop.queue = p.queue
      ∧ p.stop.current = p.current := by
  intro resolve p
  have h := stop_playing_false p
  have hq := stop_queue_current p
  refine ⟨?_, h, hq.1, hq.2⟩
  unfold Player.skip
  rw [if_neg (by simp [h])]

/-- Claim C8: a player-update patch carrying both an encoded track token and
an identifier (in the nested track object, or in the legacy top-level pair)
is rejected with the caller error before any request is performed — the
call counter and the request log are untouched — while a patch carrying at
most one of the two in each pair passes the check and reaches makeRequest. -/
theorem c8_conflicting_patch_rejected :
    ∀ (r : RestState) (body : UpdatePayload),
      (conflictingTrack body = true →
        (r.updatePlayer body).2 =
          Except.error "Cannot provide both encoded and identifier for track"
        ∧ (r.updatePlayer body).1 = r)
      ∧ (conflictingTrack body = false →
        (r.updatePlayer body).2 = Except.ok ()
        ∧ (r.updatePlayer body).1.calls = r.calls + 1) := by
  intro r body
  constructor <;> intro h <;>
    simp [RestState.updatePlayer, h, RestState.makeRequest]

/-- Claim C8, witness: the conflicting body is rejected without touching the
fresh client, and the single-field body goes through with one request
performed. -/
theorem c8_conflicting_patch_rejected_w :
    (restV4.updatePlayer conflictBody).2 =
      Except.error "Cannot provide both encoded and identifier for track"
    ∧ (restV4.updatePlayer conflictBody).1 = restV4
    ∧ (restV4.updatePlayer cleanBody).2 = Except.ok ()
    ∧ (restV4.updatePlayer cleanBody).1.calls = restV4.calls + 1 :=
  ⟨((c8_conflicting_patch_rejected restV4 conflictBody).1 (by decide)).1,
   ((c8_conflicting_patch_rejected restV4 conflictBody).1 (by decide)).2,
   ((c8_conflicting_patch_rejected restV4 cleanBody).2 (by decide)).1,
   ((c8_conflicting_patch_rejected restV4 cleanBody).2 (by decide)).2⟩

/-- Claim C9: a server update whose endpoint derives the region already
recorded leaves the stored endpoint and token untouched — only a
region-changing update writes them — while the throttled push of the
(possibly stale) credential set is still attempted and transmits exactly
when the throttle window has reopened. -/
theorem c9_same_region_keeps_credentials (c : ConnState) (endpoint token : String) (now : ℤ)
    (hne : ¬ endpoint = "") (hreg : c.region = some (deriveRegion endpoint)) :
    c.setServerUpdate endpoint token now = Except.ok (c.updatePlayerVoiceData now)
    ∧ (c.updatePlayerVoiceData now).1.voice = c.voice
    ∧ (c.updatePlayerVoiceData now).1.region = c.region
    ∧ ((c.updatePlayerVoiceData now).2 = true ↔ c.updateThrottle ≤ now - c.lastUpdateTime)
    ∧ (∀ ep tok : String, ¬ ep = "" → ¬ c.region = some (deriveRegion ep) →
        c.setServerUpdate ep tok now =
          Except.ok ((c.updateRegion (deriveRegion ep) ep tok).updatePlayerVoiceData now)
        ∧ (c.updateRegion (deriveRegion ep) ep tok).voice.endpoint = some ep
        ∧ (c.updateRegion (deriveRegion ep) ep tok).voice.token = some tok) := by
  have hc := updatePlayerVoiceData_cases c now
  refine ⟨?_, hc.2.2.1, hc.2.2.2.1, hc.1, ?_⟩
  · unfold ConnState.setServerUpdate
    rw [if_neg hne]
    dsimp only
    rw [if_neg (by simp [hreg])]
  · intro ep tok hep hregne
    refine ⟨?_, rfl, rfl⟩
    unfold ConnState.setServerUpdate
    rw [if_neg hep]
    dsimp only
    rw [if_pos hregne]

/-- Claim C9, witness: a server update repeating the recorded region euwest
reduces to the bare throttled push, whose result keeps the credential set;
and a region-changing update does write the new endpoint and token. -/
theorem c9_same_region_keeps_credentials_w :
    connReady.setServerUpdate "euwest1.discord.media" "tok2" 5000 =
      Except.ok (connReady.updatePlayerVoiceData 5000)
    ∧ (connReady.updatePlayerVoiceData 5000).1.voice = connReady.voice
    ∧ (connReady.updateRegion (deriveRegion "usnorth2.discord.media")
        "usnorth2.discord.media" "tok3").voice.endpoint = some "usnorth2.discord.media" :=
  ⟨(c9_same_region_keeps_credentials connReady "euwest1.discord.media" "tok2" 5000
      (by decide) rfl).1,
   (c9_same_region_keeps_credentials connReady "euwest1.discord.media" "tok2" 5000
      (by decide) rfl).2.1,
   ((c9_same_region_keeps_credentials connReady "euwest1.discord.media" "tok2" 5000
      (by decide) rfl).2.2.2.2 "usnorth2.discord.media" "tok3" (by decide) (by decide)).2.1⟩

/-- Claim C10: on a freshly constructed session the private key-value store
field was declared but never initialized, so both set and get raise a
TypeError until clearData has installed a store; after clearData, a set
followed by a get of the same key succeeds and returns the stored value. -/
theorem c10_dataStore_uninitialized :
    ∀ (o : PlayerOptions) (k v : ℕ),
      Player.set k v (Player.construct o) =
        Except.error "TypeError: cannot read properties of undefined"
      ∧ Player.get k (Player.construct o) =
        Except.error "TypeError: cannot read properties of undefined"
      ∧ (Player.set k v ((Player.construct o).clearData)).bind (Player.get k) =
        Except.ok (some v) := by
  intro o k v
  refine ⟨rfl, rfl, ?_⟩
  simp [Player.construct, Player.clearData, Player.set, Player.get, Except.bind, List.find?]

end Aqualink
